import Mathlib

/-!
# Verification of the waka-ai/monitor telemetry pipeline

Shallow embedding of the core pipeline of `src/monitor.py` (terminal
variant) and `src/system_monitor.py` (web variant): the network-delta
computation, the alert cooldown gate, the bounded log queue and history
deques (`collections.deque` with `maxlen`), the CSV header lifecycle, and
the top-K process ranking. Python floats are modelled as `ℚ`, machine
integers as `Int`/`Nat` (the byte counters never get near any
overflow-relevant bound in the arithmetic modelled here), and the
filesystem / SMTP transport as explicit state or outcome values.
-/

namespace Monitor

/-! ## Configuration constants (module-level constants of both scripts) -/

def ALERT_COOLDOWN : ℚ := 300

def CPU_THRESHOLD : ℚ := 90

def RAM_THRESHOLD : ℚ := 90

def DISK_THRESHOLD : ℚ := 95

def MAX_HISTORY : Nat := 200

def ENABLE_EMAIL_ALERTS : Bool := true

/-! ## `collections.deque` with `maxlen`

Both scripts use `deque(maxlen=...)` for the history buffers and
(`monitor.py` only) the CSV log queue.  An `append` on a full deque
silently discards the leftmost (oldest) element.  Lists are ordered
oldest-first, so the semantics is: keep the rightmost `maxlen` elements
of `q ++ [x]`. -/

def dequeAppend {α : Type} (maxlen : Nat) (q : List α) (x : α) : List α :=
  (q ++ [x]).drop (q.length + 1 - maxlen)

/-! ## Network delta, terminal variant (`monitor.py`, `collect_data` lines 159–164)

`net_io_prev` is a plain dict, initially empty; `net_io_prev.get("sent", 0)`
defaults the previous counter to `0`.  The emitted values are
`(bytes_sent - prev) / 1024**2` MB with no clamping and no elapsed-time
division; afterwards the dict stores the current counters. -/

structure NetIoPrev where
  sent : Option Int
  recv : Option Int
deriving DecidableEq

def netDeltaStep (prev : NetIoPrev) (bytes_sent bytes_recv : Int) :
    (ℚ × ℚ) × NetIoPrev :=
  let sent_mb : ℚ := ((bytes_sent - prev.sent.getD 0 : Int) : ℚ) / 1024 ^ 2
  let recv_mb : ℚ := ((bytes_recv - prev.recv.getD 0 : Int) : ℚ) / 1024 ^ 2
  ((sent_mb, recv_mb), ⟨some bytes_sent, some bytes_recv⟩)

/-! ## Network rate, web variant (`system_monitor.py`, lines 50–51 and 105–110)

`net_io_prev = {"sent": 0, "recv": 0, "time": time.time()}` at module load;
each cycle computes `(bytes - prev) / 1024**2 / max(elapsed, 0.1)` and then
stores the current counters and time.  Again there is no clamping. -/

structure NetPrevWeb where
  sent : Int
  recv : Int
  time : ℚ
deriving DecidableEq

def collectNetRates (prev : NetPrevWeb) (bytes_sent bytes_recv : Int)
    (current_time : ℚ) : (ℚ × ℚ) × NetPrevWeb :=
  let elapsed_net : ℚ := current_time - prev.time
  let sent_mbps : ℚ :=
    ((bytes_sent - prev.sent : Int) : ℚ) / 1024 ^ 2 / max elapsed_net (1 / 10)
  let recv_mbps : ℚ :=
    ((bytes_recv - prev.recv : Int) : ℚ) / 1024 ^ 2 / max elapsed_net (1 / 10)
  ((sent_mbps, recv_mbps), ⟨bytes_sent, bytes_recv, current_time⟩)

/-! ## AlertManager (`monitor.py` lines 60–73, `system_monitor.py` lines 57–66)

Both variants are identical: `last_alert_time`/`last_sent` starts at `0`,
and `should_send`/`can_send` returns `True` (stamping the current time)
iff `now - last >= ALERT_COOLDOWN`. -/

structure AlertManager where
  last_alert_time : ℚ
deriving DecidableEq

def AlertManager.init : AlertManager := ⟨0⟩

def shouldSend (m : AlertManager) (now : ℚ) : Bool × AlertManager :=
  if ALERT_COOLDOWN ≤ now - m.last_alert_time then (true, ⟨now⟩) else (false, m)

/-- A sequence of cycles as seen by the gate: each check is
`(breach present?, time.time())`.  `collect_data` consults
`should_send` only when the alert list is non-empty
(`if alerts and alert_manager.should_send():`), and records a fire
(i.e. spawns the email thread) exactly when it returns `True`.
Returns the final gate state and the times of the permitted fires,
in order. -/
def runChecks : AlertManager → List (Bool × ℚ) → AlertManager × List ℚ
  | m, [] => (m, [])
  | m, (breach, t) :: rest =>
    if breach then
      match shouldSend m t with
      | (fired, m') =>
        let r := runChecks m' rest
        (r.1, if fired then t :: r.2 else r.2)
    else runChecks m rest

/-! ## Threshold evaluation (`monitor.py` lines 206–218,
`system_monitor.py` lines 176–184)

Each cycle builds a list of breached metrics (the message strings are
abstracted to the metric tags; the gate only tests non-emptiness) and
consults the single module-global `alert_manager` once for the whole
list. -/

inductive Metric
  | cpu
  | ram
  | disk
deriving DecidableEq

def checkThresholds (cpu ram disk : ℚ) : List Metric :=
  (if CPU_THRESHOLD < cpu then [Metric.cpu] else []) ++
  (if RAM_THRESHOLD < ram then [Metric.ram] else []) ++
  (if DISK_THRESHOLD < disk then [Metric.disk] else [])

def alertStep (m : AlertManager) (cpu ram disk now : ℚ) : Bool × AlertManager :=
  if checkThresholds cpu ram disk ≠ [] then shouldSend m now else (false, m)

/-! ## Email transport (`monitor.py` `send_email` lines 75–96,
`system_monitor.py` `send` lines 68–84)

The SMTP exchange is an external effect; its result is modelled as an
outcome value.  `send_email` makes exactly one attempt; on an exception
it prints `[EMAIL FAILED] ...` and returns, touching no gate state. -/

inductive TransportOutcome
  | success
  | failure (msg : String)
deriving DecidableEq

def sendEmail (outcome : TransportOutcome) (subject : String) : List String :=
  if ENABLE_EMAIL_ALERTS then
    match outcome with
    | .success => ["[ALERT SENT] " ++ subject]
    | .failure e => ["[EMAIL FAILED] " ++ e]
  else []

/-- One cycle's alert dispatch: `should_send` stamps the gate at fire
time, then the spawned `send_email` thread observes the transport
outcome; nothing it does feeds back into the gate.  Returns the final
gate state and the log lines printed. -/
def alertCycle (m : AlertManager) (breach : Bool) (now : ℚ)
    (outcome : TransportOutcome) : AlertManager × List String :=
  if breach then
    match shouldSend m now with
    | (fired, m') =>
      if fired then (m', sendEmail outcome "SYSTEM ALERT: High Resource Usage")
      else (m', [])
  else (m, [])

/-! ## History store (`monitor.py` lines 179–190,
`system_monitor.py` lines 149–156)

`history` is a dict from metric key to `deque(maxlen=MAX_HISTORY)`;
`setdefault` creates an empty deque on first use, then `append` pushes.
A read (`history.get(key, [])` / `list(v)`) returns the contents
oldest-first, empty for an unknown key.  The dict is modelled as a total
function defaulting to the empty list. -/

def historyEmpty : String → List ℚ := fun _ => []

def historyPush (cap : Nat) (h : String → List ℚ) (key : String) (v : ℚ) :
    String → List ℚ :=
  fun k => if k = key then dequeAppend cap (h key) v else h k

def historySnapshot (h : String → List ℚ) (key : String) : List ℚ := h key

def foldPushes (cap : Nat) (ps : List (String × ℚ)) : String → List ℚ :=
  ps.foldl (fun h p => historyPush cap h p.1 p.2) historyEmpty

/-! ## CSV logger (`monitor.py` `CSVLogger.run` lines 115–139,
`system_monitor.py` lines 158–174)

The file is opened in mode `"a"` (append, creating it when absent) after
checking `os.path.exists`; the header row is written iff the file did
not exist at that check, then queued data rows are appended in order.
A file is `none` when absent, `some rows` otherwise; header and data
rows are distinguished by constructor because data rows are always built
from `csv_row` field lists, never from the header literal. -/

inductive Row
  | header
  | data (fields : List String)
deriving DecidableEq

def loggerStart (fs : Option (List Row)) : List Row :=
  if fs.isNone then fs.getD [] ++ [Row.header] else fs.getD []

/-- One process session: start (existence check, open-append, maybe
header), then append that session's drained rows in order. -/
def loggerSession (fs : Option (List Row)) (rows : List (List String)) :
    List Row :=
  loggerStart fs ++ rows.map Row.data

/-- A lifetime of the log file: successive process runs, each appending
its rows; the file exists from the first session on. -/
def runSessions : Option (List Row) → List (List (List String)) → Option (List Row)
  | fs, [] => fs
  | fs, rows :: rest => runSessions (some (loggerSession fs rows)) rest

/-! ## Top-K processes (`system_monitor.py` lines 120–135)

`top_cpu = sorted(processes, key=lambda x: x['cpu'], reverse=True)[:5]`
(and likewise for `ram`).  Python's `sorted` is a stable sort, and
`reverse=True` preserves the enumeration order of key-equal elements;
any stable sort computes the same list, so it is modelled with
`List.insertionSort` on the relation `key b ≤ key a`, which places an
earlier element before a later key-equal one. -/

structure Proc where
  pid : Nat
  name : String
  cpu : ℚ
  ram : ℚ
deriving DecidableEq

def topBy (key : Proc → ℚ) (k : Nat) (procs : List Proc) : List Proc :=
  (procs.insertionSort (fun a b => key b ≤ key a)).take k

/-! ## Helper lemmas -/

theorem ALERT_COOLDOWN_pos : (0 : ℚ) < ALERT_COOLDOWN := by
  norm_num [ALERT_COOLDOWN]

theorem dequeAppend_eq_drop {α : Type} (c : Nat) (q : List α) (x : α)
    (hc : 0 < c) : dequeAppend c q x = q.drop (q.length + 1 - c) ++ [x] := by
  unfold dequeAppend
  rw [List.drop_append_of_le_length (by omega)]

theorem dequeAppend_length {α : Type} (c : Nat) (q : List α) (x : α) :
    (dequeAppend c q x).length = min (q.length + 1) c := by
  unfold dequeAppend
  rw [List.length_drop, List.length_append, List.length_cons, List.length_nil,
    min_def]
  split_ifs <;> omega

theorem dequeAppend_full {α : Type} (c : Nat) (q : List α) (x : α)
    (hc : 0 < c) (hq : q.length = c) :
    dequeAppend c q x = q.drop 1 ++ [x] := by
  have h1 : c + 1 - c = 1 := by omega
  rw [dequeAppend_eq_drop c q x hc, hq, h1]

theorem dequeAppend_mem_last {α : Type} (c : Nat) (q : List α) (x : α)
    (hc : 0 < c) : x ∈ dequeAppend c q x := by
  rw [dequeAppend_eq_drop c q x hc]
  simp

theorem foldPushes_length_le (N : Nat) (ps : List (String × ℚ)) :
    ∀ h : String → List ℚ, (∀ k, (h k).length ≤ N) →
      ∀ k, ((ps.foldl (fun h p => historyPush N h p.1 p.2) h) k).length ≤ N := by
  induction ps with
  | nil => intro h hh k; exact hh k
  | cons p rest ih =>
    intro h hh k
    refine ih _ (fun k' => ?_) k
    by_cases hk : k' = p.1
    · simp only [historyPush, if_pos hk, dequeAppend_length]
      omega
    · simp only [historyPush, if_neg hk]
      exact hh k'

theorem shouldSend_pos {m : AlertManager} {t : ℚ}
    (h : ALERT_COOLDOWN ≤ t - m.last_alert_time) :
    shouldSend m t = (true, ⟨t⟩) := if_pos h

theorem shouldSend_neg {m : AlertManager} {t : ℚ}
    (h : ¬ ALERT_COOLDOWN ≤ t - m.last_alert_time) :
    shouldSend m t = (false, m) := if_neg h

/-- Invariant of a gate-check run: every permitted fire is at least one
cooldown after the incoming state's stamp, and fires are pairwise at
least one cooldown apart. -/
theorem runChecks_fires_spec (checks : List (Bool × ℚ)) :
    ∀ m : AlertManager,
      (∀ t ∈ (runChecks m checks).2, m.last_alert_time + ALERT_COOLDOWN ≤ t) ∧
      ((runChecks m checks).2).Pairwise (fun a b => a + ALERT_COOLDOWN ≤ b) := by
  induction checks with
  | nil => intro m; simp [runChecks]
  | cons c rest ih =>
    intro m
    obtain ⟨breach, t⟩ := c
    match hb : breach with
    | false => simpa only [runChecks, if_neg (Bool.false_ne_true)] using ih m
    | true =>
      by_cases hc : ALERT_COOLDOWN ≤ t - m.last_alert_time
      · have hrw : runChecks m ((true, t) :: rest)
            = ((runChecks ⟨t⟩ rest).1, t :: (runChecks ⟨t⟩ rest).2) := by
          simp [runChecks, shouldSend_pos hc]
        rw [hrw]
        obtain ⟨ih1, ih2⟩ := ih ⟨t⟩
        have hmt : m.last_alert_time + ALERT_COOLDOWN ≤ t := by linarith
        refine ⟨?_, ?_⟩
        · intro s hs
          rcases List.mem_cons.mp hs with hst | hs'
          · exact hst ▸ hmt
          · have := ih1 s hs'
            have := ALERT_COOLDOWN_pos
            simp only at this ⊢
            linarith [ih1 s hs']
        · exact List.pairwise_cons.mpr ⟨fun s hs => ih1 s hs, ih2⟩
      · have hrw : runChecks m ((true, t) :: rest) = runChecks m rest := by
          simp [runChecks, shouldSend_neg hc]
        rw [hrw]
        exact ih m

/-! ## Claim theorems -/

/-- C3 counterexample: with cooldown 300 and the gate in its initial
state (`last_alert_time = 0`, as both scripts initialize it), a breach
checked at time t = 0 does NOT fire: `0 - 0 >= 300` is false.  The
claim's "a breach at t=0 fires" fails on the code. -/
theorem gate_initial_no_fire_at_zero :
    (shouldSend AlertManager.init 0).1 = false := by
  norm_num [shouldSend, AlertManager.init, ALERT_COOLDOWN]

/-- C3 amended: from the initial state a breach at time t fires iff
t ≥ 300, because the zero initialization makes the gate behave as if an
alert had fired at clock value 0.  For every start time t0 ≥ 300 (in
particular every realistic `time.time()` epoch value) the claimed
scenario holds: a breach at t0 fires, a breach at t0 + 100 (still
cooling) does not, and a breach at t0 + 301 fires again. -/
theorem gate_cooldown_scenario (t0 : ℚ) (h : ALERT_COOLDOWN ≤ t0) :
    shouldSend AlertManager.init t0 = (true, ⟨t0⟩) ∧
    shouldSend ⟨t0⟩ (t0 + 100) = (false, ⟨t0⟩) ∧
    shouldSend ⟨t0⟩ (t0 + 301) = (true, ⟨t0 + 301⟩) ∧
    (∀ t : ℚ, (shouldSend AlertManager.init t).1 = true ↔ ALERT_COOLDOWN ≤ t) := by
  refine ⟨shouldSend_pos (by simpa [AlertManager.init] using h),
    shouldSend_neg ?_, shouldSend_pos ?_, fun t => ?_⟩
  · simp only [add_sub_cancel_left]
    norm_num [ALERT_COOLDOWN]
  · simp only [add_sub_cancel_left]
    norm_num [ALERT_COOLDOWN]
  · by_cases ht : ALERT_COOLDOWN ≤ t
    · rw [shouldSend_pos (by simpa [AlertManager.init] using ht)]
      simpa using ht
    · rw [shouldSend_neg (by simpa [AlertManager.init] using ht)]
      simpa using ht

/-- C3 witness: the amended scenario at the concrete start time
t0 = 300. -/
theorem gate_cooldown_scenario_witness :
    shouldSend AlertManager.init 300 = (true, ⟨300⟩) ∧
    shouldSend ⟨300⟩ (300 + 100) = (false, ⟨300⟩) ∧
    shouldSend ⟨300⟩ (300 + 301) = (true, ⟨300 + 301⟩) :=
  have h := gate_cooldown_scenario 300 (by norm_num [ALERT_COOLDOWN])
  ⟨h.1, h.2.1, h.2.2.1⟩

/-- C4: over every sequence of breach checks on one gate, the permitted
fires are pairwise separated by at least the cooldown duration; and a
breach arriving while cooling is suppressed with the gate state left
unchanged (nothing is queued for later delivery). -/
theorem alert_separation_invariant :
    (∀ checks : List (Bool × ℚ),
      ((runChecks AlertManager.init checks).2).Pairwise
        (fun a b => a + ALERT_COOLDOWN ≤ b)) ∧
    (∀ (m : AlertManager) (t : ℚ), t - m.last_alert_time < ALERT_COOLDOWN →
      shouldSend m t = (false, m)) :=
  ⟨fun checks => (runChecks_fires_spec checks AlertManager.init).2,
   fun _ _ h => shouldSend_neg (not_le.mpr h)⟩

/-- C4 witness: a concrete check sequence with a suppressed middle
breach, and suppression leaving a concrete gate state unchanged. -/
theorem alert_separation_invariant_witness :
    ((runChecks AlertManager.init [(true, 400), (true, 500), (true, 800)]).2).Pairwise
      (fun a b => a + ALERT_COOLDOWN ≤ b) ∧
    shouldSend ⟨400⟩ 500 = (false, ⟨400⟩) :=
  ⟨alert_separation_invariant.1 [(true, 400), (true, 500), (true, 800)],
   alert_separation_invariant.2 ⟨400⟩ 500 (by norm_num [ALERT_COOLDOWN])⟩

/-- C1 counterexample: feeding the cumulative counter sequence
[100, 40, 90] (a reset then growth) through the terminal variant's
network-delta computation yields a NEGATIVE emitted value at the second
call: `(40 - 100) / 1024**2 = -15/262144` MB.  There is no clamping or
wraparound guard in either script. -/
theorem net_delta_negative_counterexample :
    (netDeltaStep (netDeltaStep ⟨none, none⟩ 100 0).2 40 0).1.1 < 0 ∧
    (collectNetRates (collectNetRates ⟨0, 0, 0⟩ 100 0 1).2 40 0 2).1.1 < 0 := by
  constructor
  · norm_num [netDeltaStep]
  · norm_num [collectNetRates]

/-- C1 amended: the emitted network value is the raw signed difference
against the stored previous counter (divided by positive constants), so
it is negative exactly when the current cumulative value is smaller than
the stored previous value; it is never clamped to zero.  This holds for
both variants. -/
theorem net_delta_sign (prev : NetIoPrev) (prevW : NetPrevWeb) (s r : Int)
    (t : ℚ) :
    ((netDeltaStep prev s r).1.1 < 0 ↔ s < prev.sent.getD 0) ∧
    ((collectNetRates prevW s r t).1.1 < 0 ↔ s < prevW.sent) := by
  have h2 : (0 : ℚ) < 1024 ^ 2 := by norm_num
  constructor
  · simp only [netDeltaStep]
    rw [div_lt_iff₀ h2, zero_mul, Int.cast_lt_zero, sub_neg]
  · have hmax : (0 : ℚ) < max (t - prevW.time) (1 / 10) :=
      lt_of_lt_of_le (by norm_num) (le_max_right _ _)
    simp only [collectNetRates]
    rw [div_lt_iff₀ hmax, zero_mul, div_lt_iff₀ h2, zero_mul,
      Int.cast_lt_zero, sub_neg]

/-- C2 counterexample: the first update for a fresh key does not return
0: with no prior state the terminal variant defaults the previous
counter to 0 and emits `current / 1024**2` (here 1 MB for a counter of
1048576 bytes); the web variant likewise starts from a zero-initialized
baseline and emits a nonzero rate.  Both contradict "returns a rate of
exactly 0". -/
theorem first_update_nonzero_counterexample :
    (netDeltaStep ⟨none, none⟩ 1048576 0).1.1 = 1 ∧ (1 : ℚ) ≠ 0 ∧
    (collectNetRates ⟨0, 0, 0⟩ 1048576 0 1).1.1 ≠ 0 := by
  refine ⟨by norm_num [netDeltaStep], by norm_num, by norm_num [collectNetRates]⟩

/-- C2 amended: the first update for a fresh key stores the supplied
(cumulative value, timestamp) as the baseline, but its return value is
computed from a zero-initialized prior state: the terminal variant
returns `current / 1024**2` and the web variant
`current / 1024**2 / max(elapsed, 0.1)`, both of which are 0 only when
the current counter itself is 0. -/
theorem first_update_behavior (s r : Int) (t0 t : ℚ) :
    (netDeltaStep ⟨none, none⟩ s r).2 = ⟨some s, some r⟩ ∧
    (netDeltaStep ⟨none, none⟩ s r).1.1 = (s : ℚ) / 1024 ^ 2 ∧
    ((netDeltaStep ⟨none, none⟩ s r).1.1 = 0 ↔ s = 0) ∧
    (collectNetRates ⟨0, 0, t0⟩ s r t).2 = ⟨s, r, t⟩ ∧
    ((collectNetRates ⟨0, 0, t0⟩ s r t).1.1 = 0 ↔ s = 0) := by
  have h2 : (1024 : ℚ) ^ 2 ≠ 0 := by norm_num
  have hmax : max (t - t0) ((10 : ℚ)⁻¹) ≠ 0 :=
    ne_of_gt (lt_of_lt_of_le (by norm_num) (le_max_right _ _))
  refine ⟨rfl, by simp [netDeltaStep], ?_, rfl, ?_⟩
  · simp only [netDeltaStep, Option.getD_some]
    rw [div_eq_zero_iff]
    simp [h2, Int.cast_eq_zero]
  · simp only [collectNetRates]
    rw [div_eq_zero_iff, div_eq_zero_iff]
    simp [h2, hmax, Int.cast_eq_zero, one_div]

/-- C5: for every sequence of enqueues into the bounded log queue, the
length never exceeds the capacity; an enqueue on a full queue drops
exactly the oldest record and keeps the new one; with capacity 2,
enqueuing A, B, C before any drain leaves exactly [B, C] in insertion
order (the order in which `CSVLogger.run` pops them via `popleft`). -/
theorem log_queue_drop_oldest :
    (∀ (c : Nat) (q : List String) (x : String),
      (dequeAppend c q x).length = min (q.length + 1) c) ∧
    (∀ (c : Nat) (q : List String) (x : String), 0 < c → q.length = c →
      dequeAppend c q x = q.drop 1 ++ [x]) ∧
    (∀ (c : Nat) (q : List String) (x : String), 0 < c →
      x ∈ dequeAppend c q x) ∧
    ["A", "B", "C"].foldl (dequeAppend 2) [] = ["B", "C"] :=
  ⟨fun c q x => dequeAppend_length c q x,
   fun c q x hc hq => dequeAppend_full c q x hc hq,
   fun c q x hc => dequeAppend_mem_last c q x hc,
   by decide⟩

/-- C5 witness: the general parts of `log_queue_drop_oldest`
instantiated at the concrete full queue [A, B] with capacity 2. -/
theorem log_queue_drop_oldest_witness :
    dequeAppend 2 ["A", "B"] "C" = ["A", "B"].drop 1 ++ ["C"] ∧
    "C" ∈ dequeAppend 2 ["A", "B"] "C" :=
  ⟨log_queue_drop_oldest.2.1 2 ["A", "B"] "C" (by decide) (by decide),
   log_queue_drop_oldest.2.2.1 2 ["A", "B"] "C" (by decide)⟩

/-- C6: every per-key history buffer stays within the configured
capacity over any push sequence; a push on a full buffer evicts only the
oldest value; a push leaves every other key's snapshot unchanged; an
unknown key reads as the empty sequence; with capacity 3, pushing
[1, 2, 3, 4] yields the snapshot [2, 3, 4], oldest to newest. -/
theorem history_ring_buffer :
    (∀ (N : Nat) (ps : List (String × ℚ)) (k : String),
      (foldPushes N ps k).length ≤ N) ∧
    (∀ (N : Nat) (q : List ℚ) (v : ℚ), 0 < N → q.length = N →
      dequeAppend N q v = q.drop 1 ++ [v]) ∧
    (∀ (cap : Nat) (h : String → List ℚ) (key k : String) (v : ℚ), k ≠ key →
      historySnapshot (historyPush cap h key v) k = historySnapshot h k) ∧
    (∀ k : String, historySnapshot historyEmpty k = []) ∧
    foldPushes 3 [("cpu", 1), ("cpu", 2), ("cpu", 3), ("cpu", 4)] "cpu"
      = [2, 3, 4] := by
  refine ⟨?_, fun N q v hN hq => dequeAppend_full N q v hN hq,
    fun cap h key k v hk => ?_, fun k => rfl, ?_⟩
  · intro N ps k
    exact foldPushes_length_le N ps historyEmpty (fun _ => by simp [historyEmpty]) k
  · unfold historySnapshot historyPush
    rw [if_neg hk]
  · norm_num [foldPushes, historyPush, historyEmpty, dequeAppend]

/-- C6 witness: the hypothesis-bearing parts of `history_ring_buffer`
instantiated at a concrete full capacity-3 buffer and a distinct key. -/
theorem history_ring_buffer_witness :
    dequeAppend 3 [1, 2, 3] (4 : ℚ) = [1, 2, 3].drop 1 ++ [4] ∧
    historySnapshot (historyPush 3 historyEmpty "cpu" 1) "ram"
      = historySnapshot historyEmpty "ram" :=
  ⟨history_ring_buffer.2.1 3 [1, 2, 3] 4 (by norm_num) (by norm_num),
   history_ring_buffer.2.2.1 3 historyEmpty "cpu" "ram" 1 (by decide)⟩

theorem runSessions_some (ss : List (List (List String))) :
    ∀ f : List Row,
      runSessions (some f) ss = some (f ++ ss.flatten.map Row.data) := by
  induction ss with
  | nil => intro f; simp [runSessions]
  | cons s rest ih =>
    intro f
    have hsess : loggerSession (some f) s = f ++ s.map Row.data := by
      simp [loggerSession, loggerStart]
    simp only [runSessions, hsess, ih]
    simp [List.append_assoc]

/-- C7: the header row is written iff the file does not exist at the
existence check (`os.path.exists` in `CSVLogger.run` resp. the web
variant's inline check); each further session against an existing file
only appends its data rows after the previous contents; over a whole
lifetime of sessions starting from an absent file, the resulting file is
the single header followed by all data rows in order, and the header
occurs exactly once. -/
theorem csv_header_once (s : List (List String))
    (ss : List (List (List String))) :
    loggerStart none = [Row.header] ∧
    (∀ f : List Row, loggerStart (some f) = f) ∧
    (∀ (f : List Row) (rows : List (List String)),
      loggerSession (some f) rows = f ++ rows.map Row.data) ∧
    runSessions none (s :: ss)
      = some (Row.header :: (s ++ ss.flatten).map Row.data) ∧
    ((runSessions none (s :: ss)).getD []).count Row.header = 1 := by
  have hstart : loggerStart none = [Row.header] := by simp [loggerStart]
  have hsome : ∀ f : List Row, loggerStart (some f) = f := fun f => by
    simp [loggerStart]
  have hsess : ∀ (f : List Row) (rows : List (List String)),
      loggerSession (some f) rows = f ++ rows.map Row.data := fun f rows => by
    simp [loggerSession, hsome]
  have hrun : runSessions none (s :: ss)
      = some (Row.header :: (s ++ ss.flatten).map Row.data) := by
    show runSessions (some (loggerSession none s)) ss = _
    rw [runSessions_some]
    simp [loggerSession, hstart, List.map_append]
  refine ⟨hstart, hsome, hsess, hrun, ?_⟩
  have hz : ((s ++ ss.flatten).map Row.data).count Row.header = 0 :=
    List.count_eq_zero.mpr (by simp)
  rw [hrun, Option.getD_some, List.count_cons, hz]
  simp

theorem sortDesc_pairwise (key : Proc → ℚ) (l : List Proc) :
    (l.insertionSort (fun a b => key b ≤ key a)).Pairwise
      (fun a b => key b ≤ key a) := by
  haveI : IsTotal Proc (fun a b => key b ≤ key a) :=
    ⟨fun a b => le_total (key b) (key a)⟩
  haveI : IsTrans Proc (fun a b => key b ≤ key a) :=
    ⟨fun _ _ _ h1 h2 => le_trans h2 h1⟩
  exact List.sorted_insertionSort _ l

/-- C8 counterexample: `sorted(..., reverse=True)` is stable, so a
CPU tie is broken by ENUMERATION order, not by ascending pid.  With the
same three processes enumerated as pid 2, pid 1, pid 3, the top-2 list
is [pid 3, pid 2], not the claimed [pid 3, pid 1]; the claim's
"regardless of enumeration order" fails on the code. -/
theorem top_by_tiebreak_counterexample :
    (topBy Proc.cpu 2 [⟨2, "b", 5, 0⟩, ⟨1, "a", 5, 0⟩, ⟨3, "c", 9, 0⟩]).map
      Proc.pid ≠ [3, 1] := by
  norm_num [topBy, List.insertionSort, List.orderedInsert]

/-- C8 amended: the top-K-by-metric sequence has length at most K and is
sorted descending by that metric, but ties are broken by the processes'
enumeration order (Python's sort is stable); for the enumeration in
ascending pid order the claimed example output [pid 3, pid 1] is
obtained. -/
theorem top_by_sorted_bounded (key : Proc → ℚ) (k : Nat)
    (procs : List Proc) :
    (topBy key k procs).length ≤ k ∧
    (topBy key k procs).Pairwise (fun a b => key b ≤ key a) ∧
    (topBy Proc.cpu 2 [⟨1, "a", 5, 0⟩, ⟨2, "b", 5, 0⟩, ⟨3, "c", 9, 0⟩]).map
      Proc.pid = [3, 1] := by
  refine ⟨?_, ?_, ?_⟩
  · rw [topBy, List.length_take]
    exact min_le_left _ _
  · exact List.Pairwise.sublist (List.take_sublist _ _)
      (sortDesc_pairwise key procs)
  · norm_num [topBy, List.insertionSort, List.orderedInsert]

/-- C9: when the email transport fails while the gate permitted a fire,
the cycle logs `[EMAIL FAILED] ...`, makes no retry (a single log line
from a single attempt), and the gate state remains exactly the value
stamped at fire time — identical to the state after a successful send,
so the failure neither resets the gate nor propagates an exception. -/
theorem transport_failure_gate_unchanged (m : AlertManager) (now : ℚ)
    (e : String) (h : ALERT_COOLDOWN ≤ now - m.last_alert_time) :
    alertCycle m true now (.failure e)
      = (⟨now⟩, ["[EMAIL FAILED] " ++ e]) ∧
    (alertCycle m true now (.failure e)).1
      = (alertCycle m true now .success).1 := by
  constructor
  · simp [alertCycle, shouldSend_pos h, sendEmail, ENABLE_EMAIL_ALERTS]
  · simp [alertCycle, shouldSend_pos h]

/-- C9 witness: a concrete failing send at fire time 300 from the
initial gate state. -/
theorem transport_failure_gate_unchanged_witness :
    alertCycle AlertManager.init true 300 (.failure "boom")
      = (⟨300⟩, ["[EMAIL FAILED] " ++ "boom"]) :=
  (transport_failure_gate_unchanged AlertManager.init 300 "boom"
    (by norm_num [ALERT_COOLDOWN, AlertManager.init])).1

/-- C10: both scripts use one module-global `AlertManager` consulted
once per cycle for the combined breach list of all metrics, so a
permitted CPU-only alert at time t (which stamps the shared gate)
suppresses a first-ever RAM-only breach at time t + d for every
0 ≤ d < cooldown. -/
theorem global_gate_cross_metric (m : AlertManager) (t d cpu1 ram2 : ℚ)
    (hfire : ALERT_COOLDOWN ≤ t - m.last_alert_time)
    (hcpu : CPU_THRESHOLD < cpu1) (hram : RAM_THRESHOLD < ram2)
    (hd : d < ALERT_COOLDOWN) :
    alertStep m cpu1 0 0 t = (true, ⟨t⟩) ∧
    alertStep ⟨t⟩ 0 ram2 0 (t + d) = (false, ⟨t⟩) := by
  constructor
  · have hne : checkThresholds cpu1 0 0 ≠ [] := by
      norm_num [checkThresholds, hcpu, RAM_THRESHOLD, DISK_THRESHOLD]
    simp [alertStep, hne, shouldSend_pos hfire]
  · have hne : checkThresholds 0 ram2 0 ≠ [] := by
      norm_num [checkThresholds, hram, CPU_THRESHOLD, DISK_THRESHOLD]
    have hno : ¬ ALERT_COOLDOWN ≤ (t + d) - (⟨t⟩ : AlertManager).last_alert_time := by
      simp only [add_sub_cancel_left]
      linarith
    simp [alertStep, hne, shouldSend_neg hno]

/-- C10 witness: a CPU-only fire at t = 300 from the initial state
suppresses a RAM-only breach at t = 400. -/
theorem global_gate_cross_metric_witness :
    alertStep AlertManager.init 95 0 0 300 = (true, ⟨300⟩) ∧
    alertStep ⟨300⟩ 0 95 0 (300 + 100) = (false, ⟨300⟩) :=
  global_gate_cross_metric AlertManager.init 300 100 95 95
    (by norm_num [ALERT_COOLDOWN, AlertManager.init])
    (by norm_num [CPU_THRESHOLD]) (by norm_num [RAM_THRESHOLD])
    (by norm_num [ALERT_COOLDOWN])

end Monitor
